import Mathlib

/-
  Shallow embedding of the Sunlix.Arduino.TimeService time-provider subsystem.

  Source files embedded:
    src/IDateTimeProvider.h        (DateTime, TimeStatus)
    src/UptimeDateTimeProvider.cpp (uptime provider, calendar arithmetic)
    src/RtcDateTimeProvider.cpp    (edge-bound DS3231 provider)
    src/TimeService.cpp            (facade with NTP telemetry)

  Modelling conventions:
  - All C++ unsigned machine integers are Nat; wherever 32-bit (or 16-bit)
    overflow can occur the arithmetic carries an explicit `% 4294967296`
    (resp. `% 65536`), mirroring unsigned wrap-around.
  - The free-running micros()/millis() counters are modelled as unbounded
    Nat readings of real time; the C++ 32-bit wrap-safe subtraction
    `now - base` is modelled as `(now - base) % 4294967296`, which agrees
    with the hardware value whenever `base <= now` (real time is monotone).
  - External collaborators (the RTC chip, the interrupt line, the NTP
    callback) are oracles: their observable answers are explicit arguments
    (chip responsiveness, power-loss flag, the hardware second read at a
    bind, the edge arrival with its ISR-captured micros, the fetch result).
  - Hardware side effects with no provider-visible state (pinMode,
    attachInterrupt, writing the chip registers) are noted in comments.
-/

/-- Timestamp container from IDateTimeProvider.h: struct DateTime
    (year u16, month/day/hour/minute/second u8, millis u16). -/
structure DateTime where
  year : Nat
  month : Nat
  day : Nat
  hour : Nat
  minute : Nat
  second : Nat
  millis : Nat
deriving DecidableEq, Repr

/-- Provider health enumeration from IDateTimeProvider.h. -/
inductive TimeStatus where
  | Ok
  | NotStarted
  | LostPower
  | NoDevice
deriving DecidableEq, Repr

/-! ## Uptime provider (UptimeDateTimeProvider.cpp) -/

/-- State of UptimeDateTimeProvider: started_, status_, base_ (millis field
    kept at 0), t0_ms_ (millis() reading at the base anchor). -/
structure UptimeDateTimeProvider where
  started_ : Bool
  status_ : TimeStatus
  base_ : DateTime
  t0_ms_ : Nat
deriving DecidableEq, Repr

namespace UptimeDateTimeProvider

/-- UptimeDateTimeProvider::isLeap. -/
def isLeap (y : Nat) : Bool :=
  ((y % 4 == 0) && (y % 100 != 0)) || (y % 400 == 0)

/-- UptimeDateTimeProvider::daysInMonth, with the static per-month table. -/
def daysInMonth (y m : Nat) : Nat :=
  let dm : List Nat := [31, 28, 31, 30, 31, 30, 31, 31, 30, 31, 30, 31]
  if m == 2 then dm.getD 1 0 + (if isLeap y then 1 else 0)
  else dm.getD (m - 1) 0

/-- One iteration of the day-rollover loop body in addSeconds: increment the
    day, rolling into month/year using daysInMonth; ++out.year is u16. -/
def dayStep (out : DateTime) : DateTime :=
  let dim := daysInMonth out.year out.month
  if out.day < dim then { out with day := out.day + 1 }
  else if out.month < 12 then { out with day := 1, month := out.month + 1 }
  else { out with day := 1, month := 1, year := (out.year + 1) % 65536 }

/-- The `while (daysAdd--)` loop of addSeconds: runs dayStep daysAdd times. -/
def dayLoop : Nat → DateTime → DateTime
  | 0, out => out
  | n + 1, out => dayLoop n (dayStep out)

/-- UptimeDateTimeProvider::addSeconds: time-of-day rollover via u32
    division/modulo, then the day-rollover loop. The millis field is copied
    from the input (the source sets millis at the caller). -/
def addSeconds (inp : DateTime) (add_s : Nat) : DateTime :=
  let sod := inp.hour * 3600 + inp.minute * 60 + inp.second
  let total := (sod + add_s) % 4294967296
  let out := { inp with
    hour := (total / 3600) % 24
    minute := (total / 60) % 60
    second := total % 60 }
  let daysAdd := total / 86400
  dayLoop daysAdd out

/-- UptimeDateTimeProvider::begin: base 2000-01-01 00:00:00.000, anchor to
    the current millis() reading (argument ms). -/
def begin (_s : UptimeDateTimeProvider) (ms : Nat) :
    UptimeDateTimeProvider × Bool :=
  ({ started_ := true
     status_ := TimeStatus.Ok
     base_ := { year := 2000, month := 1, day := 1
                hour := 0, minute := 0, second := 0, millis := 0 }
     t0_ms_ := ms }, true)

/-- UptimeDateTimeProvider::nowUtc: wrap-safe elapsed millis split into
    whole seconds (added to the base via addSeconds) and a remainder. -/
def nowUtc (s : UptimeDateTimeProvider) (now_ms : Nat) :
    UptimeDateTimeProvider × Option DateTime :=
  if s.started_ = false then
    ({ s with status_ := TimeStatus.NotStarted }, none)
  else
    let elapsed := (now_ms - s.t0_ms_) % 4294967296
    let add_s := elapsed / 1000
    let ms := elapsed % 1000
    (s, some { addSeconds s.base_ add_s with millis := ms })

/-- UptimeDateTimeProvider::adjust: auto-begin when not started (reading
    millis() as msBegin), then set base to t with millis forced to 0,
    re-anchor t0_ms_ to a fresh millis() reading msAdj, report Ok.
    (The source also computes a clamped copy of t.millis into a local m
    that is never used afterwards.) -/
def adjust (s : UptimeDateTimeProvider) (msBegin msAdj : Nat)
    (t : DateTime) : UptimeDateTimeProvider × Bool :=
  let s1 := if s.started_ = false then (s.begin msBegin).1 else s
  let s2 := { s1 with
    base_ := { t with millis := 0 }
    t0_ms_ := msAdj
    status_ := TimeStatus.Ok }
  (s2, true)

end UptimeDateTimeProvider

/-! ## Edge-bound provider (RtcDateTimeProvider.cpp)

The ISR-shared fields (bound_, baseUnix_, baseEdgeUs_, lastIsrUs_,
edgeSeq_) are plain fields here: the source brackets every cross-context
access in noInterrupts()/interrupts(), so each critical section is one
atomic step of this model.  micros() readings are unbounded Nat; stored
u32 quantities carry explicit `% 4294967296` where the source arithmetic
wraps. -/

/-- State of RtcDateTimeProvider: the cfg_ members that the embedded
    operations consult (the rtc pointer reduced to its non-nullness, and
    requireBind), the status, and the ISR-shared binding state. -/
structure RtcDateTimeProvider where
  cfgHasRtc : Bool
  cfgRequireBind : Bool
  status_ : TimeStatus
  bound_ : Bool
  baseUnix_ : Nat
  baseEdgeUs_ : Nat
  lastIsrUs_ : Nat
  edgeSeq_ : Nat
deriving DecidableEq, Repr

namespace RtcDateTimeProvider

/-- RtcDateTimeProvider::onEdgeIsr_: capture the edge micros and bump the
    edge counter unconditionally; when bound, advance baseUnix_ by the
    whole seconds in the wrap-safe elapsed micros (floored at 1) and
    re-anchor baseEdgeUs_ to the actual captured edge time. -/
def onEdgeIsr_ (s : RtcDateTimeProvider) (nowUs : Nat) : RtcDateTimeProvider :=
  let s1 := { s with
    lastIsrUs_ := nowUs
    edgeSeq_ := (s.edgeSeq_ + 1) % 4294967296 }
  if s1.bound_ = false then s1
  else
    let d_us := (nowUs - s1.baseEdgeUs_) % 4294967296
    let n0 := d_us / 1000000
    let n := if n0 = 0 then 1 else n0
    { s1 with
      baseUnix_ := (s1.baseUnix_ + n) % 4294967296
      baseEdgeUs_ := nowUs }

/-- RtcDateTimeProvider::bindOnNextEdge_, with the poll outcome as an
    oracle: `edge = some (hwUnix, edgeUs)` means an edge arrived within
    the timeout, the ISR captured micros() = edgeUs, and the subsequent
    rtc->now().unixtime() read (seconds after the edge) gave hwUnix;
    `edge = none` means the timeout expired first.  On timeout the state
    is returned untouched. -/
def bindOnNextEdge_ (s : RtcDateTimeProvider) (edge : Option (Nat × Nat)) :
    RtcDateTimeProvider × Bool :=
  match edge with
  | none => (s, false)
  | some (hwUnix, edgeUs) =>
    if s.cfgHasRtc = false then ({ s with status_ := TimeStatus.NoDevice }, false)
    else
      ({ s with
          baseUnix_ := hwUnix % 4294967296
          baseEdgeUs_ := edgeUs
          bound_ := true
          status_ := TimeStatus.Ok }, true)

/-- RtcDateTimeProvider::begin: fail with NoDevice when the rtc pointer is
    null or the chip does not respond (chipOk); otherwise install the ISR
    target, optionally program the 1 Hz square wave, attach the interrupt
    (hardware effects outside this state), clear the binding state and
    strictly bind to the next edge; on bind timeout fail with NoDevice
    under requireBind, else proceed unbound; status then follows the
    chip's power-loss flag. -/
def begin (s : RtcDateTimeProvider) (chipOk : Bool)
    (edge : Option (Nat × Nat)) (lostPower : Bool) :
    RtcDateTimeProvider × Bool :=
  if s.cfgHasRtc = false then ({ s with status_ := TimeStatus.NoDevice }, false)
  else if chipOk = false then ({ s with status_ := TimeStatus.NoDevice }, false)
  else
    let s1 := { s with bound_ := false, baseUnix_ := 0, baseEdgeUs_ := 0, edgeSeq_ := 0 }
    match s1.bindOnNextEdge_ edge with
    | (s2, true) =>
      ({ s2 with status_ :=
          if lostPower then TimeStatus.LostPower else TimeStatus.Ok }, true)
    | (s2, false) =>
      if s.cfgRequireBind then ({ s2 with status_ := TimeStatus.NoDevice }, false)
      else
        ({ s2 with status_ :=
            if lostPower then TimeStatus.LostPower else TimeStatus.Ok }, true)

/-- Derived UTC second of a bound nowUtc read at micros() = nowUs:
    baseUnix_ plus the whole seconds of the wrap-safe elapsed micros,
    as a u32. -/
def nowUnix (s : RtcDateTimeProvider) (nowUs : Nat) : Nat :=
  let d_us := (nowUs - s.baseEdgeUs_) % 4294967296
  (s.baseUnix_ + d_us / 1000000) % 4294967296

/-- Sub-second millisecond field of a bound nowUtc read at
    micros() = nowUs: the elapsed-micros remainder below one second,
    divided down to milliseconds. -/
def nowMillis (s : RtcDateTimeProvider) (nowUs : Nat) : Nat :=
  let d_us := (nowUs - s.baseEdgeUs_) % 4294967296
  let whole := d_us / 1000000
  let remus := d_us - whole * 1000000
  remus / 1000

/-- RtcDateTimeProvider::nowUtc, returning the (unix second, millis) pair
    it derives.  Unbound path: one hardware read (oracle hwUnix, a u32
    unix second; the power-loss flag oracle decides the status), millis
    = 0.  Bound path: zero hardware reads, output from the anchor pair;
    status only promoted from NotStarted to Ok, LostPower kept sticky. -/
def nowUtc (s : RtcDateTimeProvider) (lostPower : Bool)
    (hwUnix nowUs : Nat) : RtcDateTimeProvider × Option (Nat × Nat) :=
  if s.cfgHasRtc = false then ({ s with status_ := TimeStatus.NoDevice }, none)
  else if s.bound_ = false then
    ({ s with status_ :=
        if lostPower then TimeStatus.LostPower else TimeStatus.Ok },
      some (hwUnix % 4294967296, 0))
  else
    ({ s with status_ :=
        if s.status_ = TimeStatus.NotStarted then TimeStatus.Ok else s.status_ },
      some (s.nowUnix nowUs, s.nowMillis nowUs))

/-- RtcDateTimeProvider::adjust: fail with NoDevice when the rtc pointer
    is null; otherwise write the whole-second time to the chip (hardware
    effect outside this state), clear bound_, and re-bind on the next
    edge; on bind timeout fail with NoDevice under requireBind, else
    proceed unbound; on success status becomes Ok. -/
def adjust (s : RtcDateTimeProvider) (edge : Option (Nat × Nat))
    (_t : DateTime) : RtcDateTimeProvider × Bool :=
  if s.cfgHasRtc = false then ({ s with status_ := TimeStatus.NoDevice }, false)
  else
    let s1 := { s with bound_ := false }
    match s1.bindOnNextEdge_ edge with
    | (s2, true) => ({ s2 with status_ := TimeStatus.Ok }, true)
    | (s2, false) =>
      if s.cfgRequireBind then ({ s2 with status_ := TimeStatus.NoDevice }, false)
      else ({ s2 with status_ := TimeStatus.Ok }, true)

/-- RtcDateTimeProvider::isBound. -/
def isBound (s : RtcDateTimeProvider) : Bool := s.bound_

end RtcDateTimeProvider

/-- A sequence of edge-ISR invocations at the given micros() readings,
    applied in order (List.foldl over onEdgeIsr_). -/
def applyEdges (es : List Nat) (s : RtcDateTimeProvider) : RtcDateTimeProvider :=
  es.foldl (fun t e => t.onEdgeIsr_ e) s

/-- Admissible edge trace for a bound provider between its current anchor
    and a final read at t2: edge micros are nondecreasing starting from
    the anchor, consecutive gaps stay below one u32 wrap (physically: the
    1 Hz edges are far denser than 2^32 microseconds), and the final
    anchored second plus the seconds read at t2 stays below 2^32 (the u32
    unix-second counter does not overflow during the run). -/
def edgeChain (base anchor : Nat) : List Nat → Nat → Prop
  | [], t2 => anchor ≤ t2 ∧ t2 - anchor < 4294967296
      ∧ base + (t2 - anchor) / 1000000 < 4294967296
  | e :: es, t2 => anchor ≤ e ∧ e - anchor < 4294967296
      ∧ edgeChain
          (base + (if (e - anchor) / 1000000 = 0 then 1 else (e - anchor) / 1000000))
          e es t2

/-- Time of the first event after a read at t1: the first edge of the
    trace, or the final read when the trace is empty. -/
def firstDeadline (es : List Nat) (t2 : Nat) : Nat :=
  match es with
  | [] => t2
  | e :: _ => e

/-! ## Facade (TimeService.cpp) -/

/-- TimeService::ActiveProvider. -/
inductive ActiveProvider where
  | None
  | Rtc
  | Uptime
deriving DecidableEq, Repr

/-- Oracle answers of the external collaborators consumed during one
    facade operation: the current millis()/micros() readings, the chip
    responsiveness probe, the bind-poll outcome, the power-loss flag, the
    hardware second read of an unbound nowUtc, and the NTP callback
    result (none = the callback returned false). -/
structure Env where
  msNow : Nat
  usNow : Nat
  rtcChipOk : Bool
  bindEdge : Option (Nat × Nat)
  lostPower : Bool
  hwUnix : Nat
  fetchResult : Option DateTime
deriving DecidableEq, Repr

/-- State of TimeService: the cfg_ members the embedded operations
    consult, the at-most-once-allocated RTC provider, the always-present
    uptime provider, the active-provider selection (active_ is non-null
    exactly when activeKind_ is not None, and points at the provider
    named by activeKind_), and the NTP telemetry. -/
structure TimeService where
  cfgHasRtc : Bool
  cfgRequireBind : Bool
  cfgNtpOnBegin : Bool
  cfgHasNtpFetch : Bool
  rtcProv_ : Option RtcDateTimeProvider
  uptimeProv_ : UptimeDateTimeProvider
  activeKind_ : ActiveProvider
  ntpEverSynced_ : Bool
  ntpLastOk_ : Bool
  ntpLastAttemptMs_ : Nat
  ntpLastSuccessMs_ : Nat
deriving DecidableEq, Repr

namespace TimeService

/-- The RtcDateTimeProvider freshly constructed by makeRtcProvider_ from
    the facade cfg (all binding state at its default values). -/
def freshRtcProv (s : TimeService) : RtcDateTimeProvider :=
  { cfgHasRtc := s.cfgHasRtc
    cfgRequireBind := s.cfgRequireBind
    status_ := TimeStatus.NotStarted
    bound_ := false
    baseUnix_ := 0
    baseEdgeUs_ := 0
    lastIsrUs_ := 0
    edgeSeq_ := 0 }

/-- TimeService::makeRtcProvider_: nothing to do without an rtc pointer;
    otherwise allocate the provider once, run its begin, and on success
    make it the active provider (on failure it is left allocated but
    inactive). -/
def makeRtcProvider_ (s : TimeService) (env : Env) : TimeService × Bool :=
  if s.cfgHasRtc = false then (s, false)
  else
    let prov0 := match s.rtcProv_ with
      | some p => p
      | none => s.freshRtcProv
    match prov0.begin env.rtcChipOk env.bindEdge env.lostPower with
    | (prov1, false) => ({ s with rtcProv_ := some prov1 }, false)
    | (prov1, true) =>
      ({ s with rtcProv_ := some prov1, activeKind_ := ActiveProvider.Rtc }, true)

/-- TimeService::makeUptimeProvider_: begin the uptime provider and make
    it active. -/
def makeUptimeProvider_ (s : TimeService) (env : Env) : TimeService :=
  let up := (s.uptimeProv_.begin env.msNow).1
  { s with uptimeProv_ := up, activeKind_ := ActiveProvider.Uptime }

/-- Delegation of adjust to the active provider (active_->adjust(t)). -/
def adjust (s : TimeService) (env : Env) (t : DateTime) : TimeService × Bool :=
  match s.activeKind_ with
  | ActiveProvider.None => (s, false)
  | ActiveProvider.Rtc =>
    match s.rtcProv_ with
    | none => (s, false)   -- unreachable: activeKind_ = Rtc only after allocation
    | some p =>
      match p.adjust env.bindEdge t with
      | (p1, ok) => ({ s with rtcProv_ := some p1 }, ok)
  | ActiveProvider.Uptime =>
    match s.uptimeProv_.adjust env.msNow env.msNow t with
    | (u1, ok) => ({ s with uptimeProv_ := u1 }, ok)

/-- TimeService::nowUtc: delegate to the active provider; false when none
    is active.  The out value lives in the provider operations; the
    facade returns their success flag. -/
def nowUtc (s : TimeService) (env : Env) : TimeService × Bool :=
  match s.activeKind_ with
  | ActiveProvider.None => (s, false)
  | ActiveProvider.Rtc =>
    match s.rtcProv_ with
    | none => (s, false)
    | some p =>
      match p.nowUtc env.lostPower env.hwUnix env.usNow with
      | (p1, r) => ({ s with rtcProv_ := some p1 }, r.isSome)
  | ActiveProvider.Uptime =>
    match s.uptimeProv_.nowUtc env.msNow with
    | (u1, r) => ({ s with uptimeProv_ := u1 }, r.isSome)

/-- TimeService::status: delegate to the active provider, NotStarted when
    none is active. -/
def status (s : TimeService) : TimeStatus :=
  match s.activeKind_ with
  | ActiveProvider.None => TimeStatus.NotStarted
  | ActiveProvider.Rtc =>
    match s.rtcProv_ with
    | none => TimeStatus.NotStarted
    | some p => p.status_
  | ActiveProvider.Uptime => s.uptimeProv_.status_

/-- TimeService::ntpSync: return false at once when no fetch callback is
    configured or no provider is active (before any telemetry update);
    then record the attempt millis, run the fetch, record its result; on
    fetch success apply the sample via the active provider's adjust; only
    a successful apply records ever-synced and the last-success millis
    (which the source copies from the attempt timestamp just taken). -/
def ntpSync (s : TimeService) (env : Env) : TimeService × Bool :=
  if s.cfgHasNtpFetch = false then (s, false)
  else match s.activeKind_ with
  | ActiveProvider.None => (s, false)
  | _ =>
    let s1 := { s with ntpLastAttemptMs_ := env.msNow }
    match env.fetchResult with
    | none => ({ s1 with ntpLastOk_ := false }, false)
    | some ntp =>
      let s2 := { s1 with ntpLastOk_ := true }
      match s2.adjust env ntp with
      | (s3, false) => ({ s3 with ntpLastOk_ := false }, false)
      | (s3, true) =>
        ({ s3 with
            ntpEverSynced_ := true
            ntpLastSuccessMs_ := s3.ntpLastAttemptMs_ }, true)

/-- TimeService::begin: choose the provider once (RTC when it comes up,
    else uptime), optionally run one NTP sync, return whether a provider
    is active. -/
def begin (s : TimeService) (env : Env) : TimeService × Bool :=
  let s2 := match s.makeRtcProvider_ env with
    | (s1, true) => s1
    | (s1, false) => s1.makeUptimeProvider_ env
  let s3 := if s2.cfgNtpOnBegin && s2.cfgHasNtpFetch then (s2.ntpSync env).1 else s2
  (s3, match s3.activeKind_ with
    | ActiveProvider.None => false
    | _ => true)

end TimeService

/-- Edge micros for N edges arriving exactly every 1,000,000 microseconds
    after the anchor a0. -/
def periodicEdges (a0 N : Nat) : List Nat :=
  (List.range N).map (fun i => a0 + (i + 1) * 1000000)

/-! ## Concrete states used by witnesses and counterexamples -/

/-- A bound edge-provider anchored at micros 0 with base second
    1700000000, used by the claim C1 witness. -/
def rtcBoundC1 : RtcDateTimeProvider :=
  { cfgHasRtc := true, cfgRequireBind := true, status_ := TimeStatus.Ok
    bound_ := true, baseUnix_ := 1700000000, baseEdgeUs_ := 0
    lastIsrUs_ := 0, edgeSeq_ := 1 }

/-- A bound edge-provider anchored at micros 100, used by the claim C2
    witness. -/
def rtcBoundC2 : RtcDateTimeProvider :=
  { cfgHasRtc := true, cfgRequireBind := true, status_ := TimeStatus.Ok
    bound_ := true, baseUnix_ := 500, baseEdgeUs_ := 100
    lastIsrUs_ := 100, edgeSeq_ := 1 }

/-- A bound edge-provider with requireBind configured, used by the claim
    C3 counterexample and witness. -/
def rtcBoundC3 : RtcDateTimeProvider :=
  { cfgHasRtc := true, cfgRequireBind := true, status_ := TimeStatus.Ok
    bound_ := true, baseUnix_ := 1700000000, baseEdgeUs_ := 42
    lastIsrUs_ := 42, edgeSeq_ := 7 }

/-- An unbound edge-provider whose status is LostPower, used by the claim
    C4 counterexample and witness. -/
def rtcLostC4 : RtcDateTimeProvider :=
  { cfgHasRtc := true, cfgRequireBind := false, status_ := TimeStatus.LostPower
    bound_ := false, baseUnix_ := 0, baseEdgeUs_ := 0
    lastIsrUs_ := 0, edgeSeq_ := 0 }

/-- A sample timestamp passed to adjust in witnesses. -/
def sampleTime : DateTime :=
  { year := 2024, month := 1, day := 2, hour := 3, minute := 4, second := 5
    millis := 678 }

/-- A fresh uptime provider (all defaults), component of facade states. -/
def uptimeFresh : UptimeDateTimeProvider :=
  { started_ := false, status_ := TimeStatus.NotStarted
    base_ := { year := 0, month := 0, day := 0, hour := 0, minute := 0
               second := 0, millis := 0 }
    t0_ms_ := 0 }

/-- A facade configured with an RTC, requireBind, no NTP, before begin;
    used by the claim C6 counterexample. -/
def serviceC6 : TimeService :=
  { cfgHasRtc := true, cfgRequireBind := true, cfgNtpOnBegin := false
    cfgHasNtpFetch := false, rtcProv_ := none, uptimeProv_ := uptimeFresh
    activeKind_ := ActiveProvider.None, ntpEverSynced_ := false
    ntpLastOk_ := false, ntpLastAttemptMs_ := 0, ntpLastSuccessMs_ := 0 }

/-- An environment in which the bind poll times out (no edge). -/
def envNoEdge : Env :=
  { msNow := 10, usNow := 3, rtcChipOk := true, bindEdge := none
    lostPower := false, hwUnix := 1700000000, fetchResult := none }

/-- An environment in which an edge arrives and the chip responds. -/
def envEdgeOk : Env :=
  { msNow := 20, usNow := 7, rtcChipOk := true
    bindEdge := some (1700000000, 123456), lostPower := false
    hwUnix := 1700000000, fetchResult := none }

/-- A facade with a configured fetch callback and an active uptime
    provider, used by the claim C7 witness. -/
def serviceC7 : TimeService :=
  { cfgHasRtc := false, cfgRequireBind := true, cfgNtpOnBegin := false
    cfgHasNtpFetch := true, rtcProv_ := none, uptimeProv_ := uptimeFresh
    activeKind_ := ActiveProvider.Uptime, ntpEverSynced_ := true
    ntpLastOk_ := true, ntpLastAttemptMs_ := 111, ntpLastSuccessMs_ := 222 }

/-- A facade with no fetch callback configured, used by the claim C8
    counterexample. -/
def serviceC8 : TimeService :=
  { cfgHasRtc := false, cfgRequireBind := true, cfgNtpOnBegin := false
    cfgHasNtpFetch := false, rtcProv_ := none, uptimeProv_ := uptimeFresh
    activeKind_ := ActiveProvider.Uptime, ntpEverSynced_ := false
    ntpLastOk_ := false, ntpLastAttemptMs_ := 0, ntpLastSuccessMs_ := 0 }

/-- An environment whose fetch callback fails, at millis 5. -/
def envFetchFail : Env :=
  { msNow := 5, usNow := 0, rtcChipOk := true, bindEdge := none
    lostPower := false, hwUnix := 0, fetchResult := none }

/-- An environment whose fetch callback succeeds, at millis 9. -/
def envFetchOk : Env :=
  { msNow := 9, usNow := 0, rtcChipOk := true, bindEdge := none
    lostPower := false, hwUnix := 0, fetchResult := some sampleTime }

/-- Claim C10: for every normalized timestamp (hour 0-23, minute 0-59,
    second 0-59), addSeconds with an offset of 0 returns the timestamp
    unchanged in every field, including millis. -/
theorem c10_addSeconds_zero (t : DateTime)
    (hh : t.hour < 24) (hm : t.minute < 60) (hs : t.second < 60) :
    UptimeDateTimeProvider.addSeconds t 0 = t := by
  cases t with
  | mk y mo d h mi s ms =>
    simp only [UptimeDateTimeProvider.addSeconds]
    simp only at hh hm hs
    have hsod : h * 3600 + mi * 60 + s < 86400 := by omega
    have h1 : (h * 3600 + mi * 60 + s + 0) % 4294967296
        = h * 3600 + mi * 60 + s := by omega
    rw [h1]
    have h2 : (h * 3600 + mi * 60 + s) / 86400 = 0 := by omega
    rw [h2]
    simp only [UptimeDateTimeProvider.dayLoop]
    have e1 : (h * 3600 + mi * 60 + s) / 3600 % 24 = h := by omega
    have e2 : (h * 3600 + mi * 60 + s) / 60 % 60 = mi := by omega
    have e3 : (h * 3600 + mi * 60 + s) % 60 = s := by omega
    simp [e1, e2, e3]

/-- Claim C10 witness: concrete instantiation at 2024-06-05 13:37:21.250. -/
theorem c10_addSeconds_zero_witness :
    UptimeDateTimeProvider.addSeconds
      { year := 2024, month := 6, day := 5
        hour := 13, minute := 37, second := 21, millis := 250 } 0
    = { year := 2024, month := 6, day := 5
        hour := 13, minute := 37, second := 21, millis := 250 } :=
  c10_addSeconds_zero _ (by decide) (by decide) (by decide)

/-- Claim C5: the calendar-add operation follows the spec algorithm: the
    February day count realizes the leap rule (divisible by 4 and not by
    100, or divisible by 400), the remaining months follow the day-count
    table, and the two concrete cases hold: 2024-02-28T12:00:00 + 86400 s
    = 2024-02-29T12:00:00 (leap) and 2023-02-28T12:00:00 + 86400 s =
    2023-03-01T12:00:00 (non-leap). -/
theorem c5_calendar_add :
    (∀ y : Nat, UptimeDateTimeProvider.daysInMonth y 2
      = if (y % 4 = 0 ∧ y % 100 ≠ 0) ∨ y % 400 = 0 then 29 else 28)
    ∧ (∀ y : Nat, [UptimeDateTimeProvider.daysInMonth y 1,
        UptimeDateTimeProvider.daysInMonth y 3,
        UptimeDateTimeProvider.daysInMonth y 4,
        UptimeDateTimeProvider.daysInMonth y 5,
        UptimeDateTimeProvider.daysInMonth y 6,
        UptimeDateTimeProvider.daysInMonth y 7,
        UptimeDateTimeProvider.daysInMonth y 8,
        UptimeDateTimeProvider.daysInMonth y 9,
        UptimeDateTimeProvider.daysInMonth y 10,
        UptimeDateTimeProvider.daysInMonth y 11,
        UptimeDateTimeProvider.daysInMonth y 12]
        = [31, 31, 30, 31, 30, 31, 31, 30, 31, 30, 31])
    ∧ UptimeDateTimeProvider.addSeconds
        { year := 2024, month := 2, day := 28
          hour := 12, minute := 0, second := 0, millis := 0 } 86400
      = { year := 2024, month := 2, day := 29
          hour := 12, minute := 0, second := 0, millis := 0 }
    ∧ UptimeDateTimeProvider.addSeconds
        { year := 2023, month := 2, day := 28
          hour := 12, minute := 0, second := 0, millis := 0 } 86400
      = { year := 2023, month := 3, day := 1
          hour := 12, minute := 0, second := 0, millis := 0 } := by
  refine ⟨?_, ?_, by decide, by decide⟩
  · intro y
    by_cases h4 : y % 4 = 0 <;> by_cases h100 : y % 100 = 0 <;>
      by_cases h400 : y % 400 = 0 <;>
      simp [UptimeDateTimeProvider.daysInMonth,
        UptimeDateTimeProvider.isLeap, h4, h100, h400]
  · intro y
    simp [UptimeDateTimeProvider.daysInMonth]

/-- Claim C9: for every input timestamp (any millis value) and every pair
    of millis() readings, the uptime provider adjust auto-initializes,
    sets the base to the new time with its millis field forced to 0,
    re-anchors t0_ms_ to the current reading, reports Ok and returns true. -/
theorem c9_uptime_adjust (s : UptimeDateTimeProvider)
    (msBegin msAdj : Nat) (t : DateTime) :
    (s.adjust msBegin msAdj t).2 = true
    ∧ (s.adjust msBegin msAdj t).1.started_ = true
    ∧ (s.adjust msBegin msAdj t).1.base_ = { t with millis := 0 }
    ∧ (s.adjust msBegin msAdj t).1.t0_ms_ = msAdj
    ∧ (s.adjust msBegin msAdj t).1.status_ = TimeStatus.Ok := by
  simp only [UptimeDateTimeProvider.adjust, UptimeDateTimeProvider.begin]
  by_cases h : s.started_ = false <;> simp [h]

/-! ## Edge-bound provider: monotonicity and edge accounting -/

/-- Field effect of the edge ISR on a bound provider: the base second
    advances by the floored-at-1 whole seconds of the wrap-safe elapsed
    micros, the anchor moves to the captured edge time, and the bound
    flag, cfg and status are untouched. -/
lemma onEdgeIsr_bound_fields (s : RtcDateTimeProvider) (e : Nat)
    (hb : s.bound_ = true) :
    (s.onEdgeIsr_ e).bound_ = true
    ∧ (s.onEdgeIsr_ e).cfgHasRtc = s.cfgHasRtc
    ∧ (s.onEdgeIsr_ e).status_ = s.status_
    ∧ (s.onEdgeIsr_ e).baseUnix_
        = (s.baseUnix_ +
            (if ((e - s.baseEdgeUs_) % 4294967296) / 1000000 = 0 then 1
             else ((e - s.baseEdgeUs_) % 4294967296) / 1000000)) % 4294967296
    ∧ (s.onEdgeIsr_ e).baseEdgeUs_ = e := by
  simp [RtcDateTimeProvider.onEdgeIsr_, hb]

/-- applyEdges preserves the bound flag, the cfg and the status of a
    bound provider. -/
lemma applyEdges_preserves : ∀ (es : List Nat) (s : RtcDateTimeProvider),
    s.bound_ = true →
    (applyEdges es s).bound_ = true
    ∧ (applyEdges es s).cfgHasRtc = s.cfgHasRtc
    ∧ (applyEdges es s).status_ = s.status_ := by
  intro es
  induction es with
  | nil => intro s hb; simp [applyEdges, hb]
  | cons e es ih =>
    intro s hb
    have hfold : applyEdges (e :: es) s = applyEdges es (s.onEdgeIsr_ e) := by
      simp [applyEdges]
    obtain ⟨f1, f2, f3, _, _⟩ := onEdgeIsr_bound_fields s e hb
    obtain ⟨g1, g2, g3⟩ := ih (s.onEdgeIsr_ e) f1
    rw [hfold]
    exact ⟨g1, by rw [g2, f2], by rw [g3, f3]⟩

/-- In an admissible edge trace the running base second stays below the
    u32 bound. -/
lemma edgeChain_base_lt : ∀ (es : List Nat) (base anchor t2 : Nat),
    edgeChain base anchor es t2 → base < 4294967296 := by
  intro es
  induction es with
  | nil => intro base anchor t2 h; simp only [edgeChain] at h; omega
  | cons e es ih =>
    intro base anchor t2 h
    simp only [edgeChain] at h
    have := ih _ _ _ h.2.2
    omega

/-- In an admissible edge trace the anchor is at or before the first
    event. -/
lemma edgeChain_anchor_le (es : List Nat) (base anchor t2 : Nat)
    (h : edgeChain base anchor es t2) : anchor ≤ firstDeadline es t2 := by
  cases es with
  | nil => simp only [edgeChain] at h; simpa [firstDeadline] using h.1
  | cons e es => simp only [edgeChain] at h; simpa [firstDeadline] using h.1

/-- The sub-second millisecond field of a bound read is always at most
    999, with no assumption on the micros reading. -/
lemma nowMillis_le (s : RtcDateTimeProvider) (t : Nat) :
    s.nowMillis t ≤ 999 := by
  simp only [RtcDateTimeProvider.nowMillis]
  omega

/-- Monotonicity of the derived UTC second across any admissible edge
    trace: a bound read at t1 never exceeds a bound read at t2 taken
    after the edges fire. -/
lemma nowUnix_mono : ∀ (es : List Nat) (s : RtcDateTimeProvider) (t1 t2 : Nat),
    s.bound_ = true → s.baseEdgeUs_ ≤ t1 → t1 ≤ firstDeadline es t2 →
    edgeChain s.baseUnix_ s.baseEdgeUs_ es t2 →
    s.nowUnix t1 ≤ (applyEdges es s).nowUnix t2 := by
  intro es
  induction es with
  | nil =>
    intro s t1 t2 _hb ha h1 hc
    simp only [edgeChain] at hc
    simp only [firstDeadline] at h1
    simp only [applyEdges, List.foldl_nil, RtcDateTimeProvider.nowUnix]
    omega
  | cons e es ih =>
    intro s t1 t2 hb ha h1 hc
    simp only [edgeChain] at hc
    obtain ⟨hae, hgap, hctail⟩ := hc
    simp only [firstDeadline] at h1
    obtain ⟨f1, _f2, _f3, f4, f5⟩ := onEdgeIsr_bound_fields s e hb
    have hbase_lt : s.baseUnix_ +
        (if (e - s.baseEdgeUs_) / 1000000 = 0 then 1
         else (e - s.baseEdgeUs_) / 1000000) < 4294967296 :=
      edgeChain_base_lt es _ e t2 hctail
    have hmod : (e - s.baseEdgeUs_) % 4294967296 = e - s.baseEdgeUs_ :=
      Nat.mod_eq_of_lt hgap
    have hbase : (s.onEdgeIsr_ e).baseUnix_
        = s.baseUnix_ +
          (if (e - s.baseEdgeUs_) / 1000000 = 0 then 1
           else (e - s.baseEdgeUs_) / 1000000) := by
      rw [f4, hmod, Nat.mod_eq_of_lt hbase_lt]
    have hfold : applyEdges (e :: es) s = applyEdges es (s.onEdgeIsr_ e) := by
      simp [applyEdges]
    have step : s.nowUnix t1 ≤ (s.onEdgeIsr_ e).nowUnix e := by
      have hn1 : (e - s.baseEdgeUs_) / 1000000
          ≤ (if (e - s.baseEdgeUs_) / 1000000 = 0 then 1
             else (e - s.baseEdgeUs_) / 1000000) := by
        split <;> omega
      simp only [RtcDateTimeProvider.nowUnix, hbase, f5]
      omega
    have htail2 : edgeChain (s.onEdgeIsr_ e).baseUnix_
        (s.onEdgeIsr_ e).baseEdgeUs_ es t2 := by
      rw [hbase, f5]; exact hctail
    have hanch : (s.onEdgeIsr_ e).baseEdgeUs_ ≤ e := by rw [f5]
    have hdead : e ≤ firstDeadline es t2 := by
      have := edgeChain_anchor_le es _ e t2 hctail
      exact this
    have ihh := ih (s.onEdgeIsr_ e) e t2 f1 hanch hdead htail2
    rw [hfold]
    exact le_trans step ihh

/-- Claim C1: after a successful bind, across any pair of bound now()
    reads at micros t1 and then t2 with edge interrupts possibly firing
    in between (admissible trace, no adjust in between), the derived UTC
    second is non-decreasing, and the millisecond field of every bound
    now() read lies in [0, 999] (lower bound 0 is inherent to Nat); both
    reads indeed return these values through nowUtc with zero hardware
    reads. -/
theorem c1_bound_now_monotone (s : RtcDateTimeProvider) (es : List Nat)
    (t1 t2 : Nat) (lp1 lp2 : Bool) (hw1 hw2 : Nat)
    (hrtc : s.cfgHasRtc = true) (hb : s.bound_ = true)
    (ha : s.baseEdgeUs_ ≤ t1) (h1 : t1 ≤ firstDeadline es t2)
    (hc : edgeChain s.baseUnix_ s.baseEdgeUs_ es t2) :
    (s.nowUtc lp1 hw1 t1).2 = some (s.nowUnix t1, s.nowMillis t1)
    ∧ ((applyEdges es s).nowUtc lp2 hw2 t2).2
        = some ((applyEdges es s).nowUnix t2, (applyEdges es s).nowMillis t2)
    ∧ s.nowUnix t1 ≤ (applyEdges es s).nowUnix t2
    ∧ s.nowMillis t1 ≤ 999
    ∧ (applyEdges es s).nowMillis t2 ≤ 999 := by
  obtain ⟨g1, g2, _g3⟩ := applyEdges_preserves es s hb
  refine ⟨?_, ?_, nowUnix_mono es s t1 t2 hb ha h1 hc,
    nowMillis_le s t1, nowMillis_le _ t2⟩
  · simp [RtcDateTimeProvider.nowUtc, hrtc, hb]
  · simp [RtcDateTimeProvider.nowUtc, g1, g2, hrtc]

/-- Claim C1 witness: a bound provider anchored at micros 0, a read at
    micros 500000, edges at 1000000 and 2000000, a later read at
    2500000. -/
theorem c1_bound_now_monotone_witness :
    edgeChain rtcBoundC1.baseUnix_ rtcBoundC1.baseEdgeUs_
      [1000000, 2000000] 2500000
    ∧ (rtcBoundC1.nowUnix 500000
        ≤ (applyEdges [1000000, 2000000] rtcBoundC1).nowUnix 2500000
      ∧ rtcBoundC1.nowMillis 500000 ≤ 999) := by
  have hc : edgeChain rtcBoundC1.baseUnix_ rtcBoundC1.baseEdgeUs_
      [1000000, 2000000] 2500000 := by
    simp [edgeChain, rtcBoundC1]
  have h := c1_bound_now_monotone rtcBoundC1 [1000000, 2000000]
    500000 2500000 false false 0 0 rfl rfl (by simp [rtcBoundC1])
    (by simp [firstDeadline]) hc
  exact ⟨hc, h.2.2.1, h.2.2.2.1⟩

/-- Running the ISR on a bound provider for N exactly-periodic edges
    advances the base second by exactly N and the anchor by N seconds of
    micros, keeping the provider bound. -/
lemma applyEdges_periodic : ∀ (N : Nat) (s : RtcDateTimeProvider),
    s.bound_ = true → s.baseUnix_ + N < 4294967296 →
    (applyEdges (periodicEdges s.baseEdgeUs_ N) s).bound_ = true
    ∧ (applyEdges (periodicEdges s.baseEdgeUs_ N) s).baseUnix_ = s.baseUnix_ + N
    ∧ (applyEdges (periodicEdges s.baseEdgeUs_ N) s).baseEdgeUs_
        = s.baseEdgeUs_ + N * 1000000 := by
  intro N
  induction N with
  | zero =>
    intro s hb _hlt
    simp [applyEdges, periodicEdges, hb]
  | succ N ih =>
    intro s hb hlt
    have hper : periodicEdges s.baseEdgeUs_ (N + 1)
        = periodicEdges s.baseEdgeUs_ N ++ [s.baseEdgeUs_ + (N + 1) * 1000000] := by
      simp [periodicEdges, List.range_succ]
    have hfold : applyEdges
          (periodicEdges s.baseEdgeUs_ N ++ [s.baseEdgeUs_ + (N + 1) * 1000000]) s
        = (applyEdges (periodicEdges s.baseEdgeUs_ N) s).onEdgeIsr_
            (s.baseEdgeUs_ + (N + 1) * 1000000) := by
      simp [applyEdges, List.foldl_append]
    obtain ⟨b1, b2, b3⟩ := ih s hb (by omega)
    obtain ⟨f1, _f2, _f3, f4, f5⟩ := onEdgeIsr_bound_fields
      (applyEdges (periodicEdges s.baseEdgeUs_ N) s)
      (s.baseEdgeUs_ + (N + 1) * 1000000) b1
    have hd : s.baseEdgeUs_ + (N + 1) * 1000000
        - (applyEdges (periodicEdges s.baseEdgeUs_ N) s).baseEdgeUs_
        = 1000000 := by
      rw [b3]; omega
    rw [hper, hfold]
    refine ⟨f1, ?_, ?_⟩
    · rw [f4, hd, b2]
      norm_num
      omega
    · rw [f5]

/-- Claim C2: on a bound provider the edge handler advances the anchored
    base second by exactly max(1, floor(elapsed_us / 1000000)) of the
    wrap-safe elapsed micros since the previous anchor, and re-anchors to
    the captured edge time; for edges arriving exactly every 1,000,000
    microseconds, N edges advance the base second by exactly N; and when
    two edge periods elapse before one handler invocation, that single
    invocation advances the base by 2. -/
theorem c2_edge_isr_accounting (s : RtcDateTimeProvider) (e N : Nat)
    (hb : s.bound_ = true)
    (hN : s.baseUnix_ + N < 4294967296)
    (h2 : s.baseUnix_ + 2 < 4294967296) :
    ((s.onEdgeIsr_ e).baseUnix_
        = (s.baseUnix_
            + Nat.max 1 (((e - s.baseEdgeUs_) % 4294967296) / 1000000))
          % 4294967296
      ∧ (s.onEdgeIsr_ e).baseEdgeUs_ = e)
    ∧ (applyEdges (periodicEdges s.baseEdgeUs_ N) s).baseUnix_
        = s.baseUnix_ + N
    ∧ (s.onEdgeIsr_ (s.baseEdgeUs_ + 2000000)).baseUnix_
        = s.baseUnix_ + 2 := by
  obtain ⟨_f1, _f2, _f3, f4, f5⟩ := onEdgeIsr_bound_fields s e hb
  obtain ⟨_g1, g2, _g3⟩ := applyEdges_periodic N s hb hN
  obtain ⟨_h1, _h2, _h3, h4, _h5⟩ := onEdgeIsr_bound_fields s
    (s.baseEdgeUs_ + 2000000) hb
  refine ⟨⟨?_, f5⟩, g2, ?_⟩
  · rw [f4]
    congr 1
    congr 1
    have : Nat.max 1 (((e - s.baseEdgeUs_) % 4294967296) / 1000000)
        = if ((e - s.baseEdgeUs_) % 4294967296) / 1000000 = 0 then 1
          else ((e - s.baseEdgeUs_) % 4294967296) / 1000000 := by
      by_cases h : ((e - s.baseEdgeUs_) % 4294967296) / 1000000 = 0
      · rw [if_pos h, h]; decide
      · rw [if_neg h]
        exact Nat.max_eq_right (by omega)
    rw [this]
  · rw [h4]
    have hd : (s.baseEdgeUs_ + 2000000 - s.baseEdgeUs_) % 4294967296
        = 2000000 := by omega
    rw [hd]
    norm_num
    omega

/-- Claim C2 witness: a bound provider anchored at micros 100 with base
    second 500, one edge at micros 1234567, and three periodic edges. -/
theorem c2_edge_isr_accounting_witness :
    ((rtcBoundC2.onEdgeIsr_ 1234567).baseUnix_
        = (rtcBoundC2.baseUnix_
            + Nat.max 1 (((1234567 - rtcBoundC2.baseEdgeUs_) % 4294967296)
                / 1000000)) % 4294967296
      ∧ (rtcBoundC2.onEdgeIsr_ 1234567).baseEdgeUs_ = 1234567)
    ∧ (applyEdges (periodicEdges rtcBoundC2.baseEdgeUs_ 3) rtcBoundC2).baseUnix_
        = rtcBoundC2.baseUnix_ + 3
    ∧ (rtcBoundC2.onEdgeIsr_ (rtcBoundC2.baseEdgeUs_ + 2000000)).baseUnix_
        = rtcBoundC2.baseUnix_ + 2 :=
  c2_edge_isr_accounting rtcBoundC2 1234567 3 rfl (by decide) (by decide)

/-! ## Edge-bound provider: adjust-timeout and LostPower stickiness -/

/-- Claim C3 counterexample: on a bound provider with requireBind, an
    adjust whose bind poll times out returns false with status NoDevice,
    but the bound flag HAS been mutated: adjust clears it before the bind
    attempt, so it ends false where it was true. -/
theorem c3_adjust_timeout_counterexample :
    (rtcBoundC3.adjust none sampleTime).2 = false
    ∧ (rtcBoundC3.adjust none sampleTime).1.status_ = TimeStatus.NoDevice
    ∧ rtcBoundC3.bound_ = true
    ∧ (rtcBoundC3.adjust none sampleTime).1.bound_ = false := by
  decide

/-- Claim C3 (amended): when a bound provider with requireBind runs
    adjust and no edge arrives within the bind timeout, adjust returns
    false, the status becomes NoDevice, and the baseUnixSecond/
    baseEdgeMicros anchor pair is left unmutated — but the bound flag is
    cleared to false by adjust before the bind attempt, so it does not
    survive. -/
theorem c3_adjust_timeout (s : RtcDateTimeProvider) (t : DateTime)
    (hrtc : s.cfgHasRtc = true) (hreq : s.cfgRequireBind = true)
    (_hb : s.bound_ = true) :
    (s.adjust none t).2 = false
    ∧ (s.adjust none t).1.status_ = TimeStatus.NoDevice
    ∧ (s.adjust none t).1.baseUnix_ = s.baseUnix_
    ∧ (s.adjust none t).1.baseEdgeUs_ = s.baseEdgeUs_
    ∧ (s.adjust none t).1.bound_ = false := by
  simp [RtcDateTimeProvider.adjust, RtcDateTimeProvider.bindOnNextEdge_,
    hrtc, hreq]

/-- Claim C3 witness: the amended statement instantiated on the concrete
    bound provider. -/
theorem c3_adjust_timeout_witness :
    (rtcBoundC3.adjust none sampleTime).2 = false
    ∧ (rtcBoundC3.adjust none sampleTime).1.status_ = TimeStatus.NoDevice
    ∧ (rtcBoundC3.adjust none sampleTime).1.baseUnix_ = rtcBoundC3.baseUnix_
    ∧ (rtcBoundC3.adjust none sampleTime).1.baseEdgeUs_ = rtcBoundC3.baseEdgeUs_
    ∧ (rtcBoundC3.adjust none sampleTime).1.bound_ = false :=
  c3_adjust_timeout rtcBoundC3 sampleTime rfl rfl rfl

/-- Claim C4 counterexample: an unbound now() on a provider whose status
    is LostPower sets the status from the hardware power-loss flag, so
    when the flag reads clear a single now() call moves LostPower to Ok
    without any adjust. -/
theorem c4_lostpower_counterexample :
    rtcLostC4.status_ = TimeStatus.LostPower
    ∧ (rtcLostC4.nowUtc false 1700000000 5).1.status_ = TimeStatus.Ok := by
  decide

/-- Claim C4 (amended): once the status is LostPower, bound now() calls
    never change it to Ok, and unbound now() calls keep it LostPower as
    long as the hardware power-loss flag still reads set; a successful
    adjust() (an edge arrives at the re-bind) returns true and clears the
    status to Ok.  (An unbound now() that observes the flag cleared does
    set Ok without an adjust — the counterexample.) -/
theorem c4_lostpower_sticky (s : RtcDateTimeProvider) (lp : Bool)
    (hw us : Nat) (t : DateTime) (e : Nat × Nat)
    (hrtc : s.cfgHasRtc = true) (hst : s.status_ = TimeStatus.LostPower) :
    (s.bound_ = true → (s.nowUtc lp hw us).1.status_ = TimeStatus.LostPower)
    ∧ (s.nowUtc true hw us).1.status_ = TimeStatus.LostPower
    ∧ (s.adjust (some e) t).2 = true
    ∧ (s.adjust (some e) t).1.status_ = TimeStatus.Ok := by
  refine ⟨?_, ?_, ?_, ?_⟩
  · intro hb
    simp [RtcDateTimeProvider.nowUtc, hrtc, hb, hst]
  · by_cases hb : s.bound_ = true
    · simp [RtcDateTimeProvider.nowUtc, hrtc, hb, hst]
    · simp only [Bool.not_eq_true] at hb
      simp [RtcDateTimeProvider.nowUtc, hrtc, hb]
  · obtain ⟨a, b⟩ := e
    simp [RtcDateTimeProvider.adjust, RtcDateTimeProvider.bindOnNextEdge_, hrtc]
  · obtain ⟨a, b⟩ := e
    simp [RtcDateTimeProvider.adjust, RtcDateTimeProvider.bindOnNextEdge_, hrtc]

/-- Claim C4 witness: the amended statement instantiated on the concrete
    LostPower provider with the flag still set, plus its adjust. -/
theorem c4_lostpower_sticky_witness :
    ((rtcLostC4.nowUtc true 1700000000 5).1.status_ = TimeStatus.LostPower)
    ∧ (rtcLostC4.adjust (some (1700000001, 999)) sampleTime).2 = true
    ∧ (rtcLostC4.adjust (some (1700000001, 999)) sampleTime).1.status_
        = TimeStatus.Ok := by
  have h := c4_lostpower_sticky rtcLostC4 true 1700000000 5 sampleTime
    (1700000001, 999) rfl rfl
  exact ⟨h.2.1, h.2.2.1, h.2.2.2⟩

/-! ## Facade: provider selection and NTP telemetry -/

/-- Facade nowUtc never changes the active-provider selection. -/
lemma nowUtc_keeps_active (s : TimeService) (env : Env) :
    (s.nowUtc env).1.activeKind_ = s.activeKind_ := by
  cases hk : s.activeKind_ <;> simp [TimeService.nowUtc, hk] <;>
    cases hr : s.rtcProv_ <;> simp [hr, hk]

/-- Facade adjust never changes the active-provider selection, and never
    touches the NTP telemetry. -/
lemma adjust_keeps_active (s : TimeService) (env : Env) (t : DateTime) :
    (s.adjust env t).1.activeKind_ = s.activeKind_
    ∧ (s.adjust env t).1.ntpEverSynced_ = s.ntpEverSynced_
    ∧ (s.adjust env t).1.ntpLastOk_ = s.ntpLastOk_
    ∧ (s.adjust env t).1.ntpLastAttemptMs_ = s.ntpLastAttemptMs_
    ∧ (s.adjust env t).1.ntpLastSuccessMs_ = s.ntpLastSuccessMs_ := by
  cases hk : s.activeKind_ <;> simp [TimeService.adjust, hk] <;>
    cases hr : s.rtcProv_ <;> simp [hr, hk]

/-- Facade ntpSync never changes the active-provider selection. -/
lemma ntpSync_keeps_active (s : TimeService) (env : Env) :
    (s.ntpSync env).1.activeKind_ = s.activeKind_ := by
  obtain ⟨c1, c2, c3, c4, rtcP, upP, aK, n1, n2, n3, n4⟩ := s
  cases c4
  · simp [TimeService.ntpSync]
  · cases aK
    · simp [TimeService.ntpSync]
    · cases hfr : env.fetchResult with
      | none => simp [TimeService.ntpSync, hfr]
      | some ntp =>
        cases rtcP with
        | none => simp [TimeService.ntpSync, hfr, TimeService.adjust]
        | some p =>
          rcases hp : p.adjust env.bindEdge ntp with ⟨p1, ok⟩
          cases ok <;>
            simp [TimeService.ntpSync, hfr, TimeService.adjust, hp]
    · cases hfr : env.fetchResult with
      | none => simp [TimeService.ntpSync, hfr]
      | some ntp =>
        rcases hu : upP.adjust env.msNow env.msNow ntp with ⟨u1, ok⟩
        cases ok <;>
          simp [TimeService.ntpSync, hfr, TimeService.adjust, hu]

/-- Claim C6 counterexample: after begin() selected the uptime provider
    (bind timed out under requireBind), calling begin() again when the
    chip responds and an edge arrives re-runs provider selection and
    switches the active provider to the RTC provider — the selection is
    not permanent under a repeated initialize(). -/
theorem c6_selection_counterexample :
    (serviceC6.begin envNoEdge).1.activeKind_ = ActiveProvider.Uptime
    ∧ ((serviceC6.begin envNoEdge).1.begin envEdgeOk).1.activeKind_
        = ActiveProvider.Rtc := by
  decide

/-- Claim C6 (amended): after initialize() has selected an active
    provider, no operation other than initialize() itself — nowUtc,
    adjust, ntpSync (status reads no state) — ever changes which provider
    is active; calling initialize() again, however, re-runs provider
    selection and can change it (the counterexample). -/
theorem c6_selection_stable (s : TimeService) (env : Env) (t : DateTime) :
    (s.nowUtc env).1.activeKind_ = s.activeKind_
    ∧ (s.adjust env t).1.activeKind_ = s.activeKind_
    ∧ (s.ntpSync env).1.activeKind_ = s.activeKind_ :=
  ⟨nowUtc_keeps_active s env, (adjust_keeps_active s env t).1,
    ntpSync_keeps_active s env⟩

/-- Claim C7: ntpSync with a configured fetch function and an active
    provider, when the fetch fails, leaves ntpEverSynced_ and
    ntpLastSuccessMs_ unchanged, records the attempt millis, sets
    ntpLastOk_ to false, returns false, and does not invoke the active
    provider's adjust (both providers are left exactly as they were). -/
theorem c7_ntp_fetch_failure (s : TimeService) (env : Env)
    (hf : s.cfgHasNtpFetch = true)
    (ha : s.activeKind_ ≠ ActiveProvider.None)
    (hfr : env.fetchResult = none) :
    (s.ntpSync env).2 = false
    ∧ (s.ntpSync env).1.ntpEverSynced_ = s.ntpEverSynced_
    ∧ (s.ntpSync env).1.ntpLastSuccessMs_ = s.ntpLastSuccessMs_
    ∧ (s.ntpSync env).1.ntpLastAttemptMs_ = env.msNow
    ∧ (s.ntpSync env).1.ntpLastOk_ = false
    ∧ (s.ntpSync env).1.rtcProv_ = s.rtcProv_
    ∧ (s.ntpSync env).1.uptimeProv_ = s.uptimeProv_ := by
  cases hk : s.activeKind_ with
  | None => exact absurd hk ha
  | Rtc => simp [TimeService.ntpSync, hf, hk, hfr]
  | Uptime => simp [TimeService.ntpSync, hf, hk, hfr]

/-- Claim C7 witness: the concrete facade with prior telemetry, a failing
    fetch at millis 5. -/
theorem c7_ntp_fetch_failure_witness :
    (serviceC7.ntpSync envFetchFail).2 = false
    ∧ (serviceC7.ntpSync envFetchFail).1.ntpEverSynced_ = true
    ∧ (serviceC7.ntpSync envFetchFail).1.ntpLastSuccessMs_ = 222
    ∧ (serviceC7.ntpSync envFetchFail).1.ntpLastAttemptMs_ = 5
    ∧ (serviceC7.ntpSync envFetchFail).1.ntpLastOk_ = false := by
  have h := c7_ntp_fetch_failure serviceC7 envFetchFail rfl
    (by decide) rfl
  exact ⟨h.1, h.2.1, h.2.2.1, h.2.2.2.1, h.2.2.2.2.1⟩

/-- Claim C8 counterexample: an ntpSync invocation on a facade with no
    fetch function configured returns false without recording the
    attempt timestamp — in fact it leaves the whole facade state
    untouched (the source returns before the telemetry update), so the
    recording is not unconditional across all invocations. -/
theorem c8_attempt_counterexample :
    (serviceC8.ntpSync envFetchFail).2 = false
    ∧ envFetchFail.msNow = 5
    ∧ (serviceC8.ntpSync envFetchFail).1.ntpLastAttemptMs_ = 0
    ∧ (serviceC8.ntpSync envFetchFail).1 = serviceC8 := by
  decide

/-- Claim C8 (amended): every ntpSync invocation that passes the initial
    guard (a fetch function is configured and a provider is active)
    records the attempt timestamp unconditionally — on fetch failure,
    on apply failure and on success alike; an invocation failing the
    guard returns false with all telemetry untouched (the
    counterexample). -/
theorem c8_attempt_recorded (s : TimeService) (env : Env)
    (hf : s.cfgHasNtpFetch = true)
    (ha : s.activeKind_ ≠ ActiveProvider.None) :
    (s.ntpSync env).1.ntpLastAttemptMs_ = env.msNow := by
  obtain ⟨c1, c2, c3, c4, rtcP, upP, aK, n1, n2, n3, n4⟩ := s
  simp only at hf ha
  subst hf
  cases aK
  · exact absurd rfl ha
  · cases hfr : env.fetchResult with
    | none => simp [TimeService.ntpSync, hfr]
    | some ntp =>
      cases rtcP with
      | none => simp [TimeService.ntpSync, hfr, TimeService.adjust]
      | some p =>
        rcases hp : p.adjust env.bindEdge ntp with ⟨p1, ok⟩
        cases ok <;>
          simp [TimeService.ntpSync, hfr, TimeService.adjust, hp]
  · cases hfr : env.fetchResult with
    | none => simp [TimeService.ntpSync, hfr]
    | some ntp =>
      rcases hu : upP.adjust env.msNow env.msNow ntp with ⟨u1, ok⟩
      cases ok <;>
        simp [TimeService.ntpSync, hfr, TimeService.adjust, hu]

/-- Claim C8 witness: the attempt timestamp is recorded on the concrete
    facade both for a failing fetch and for a succeeding one. -/
theorem c8_attempt_recorded_witness :
    (serviceC7.ntpSync envFetchFail).1.ntpLastAttemptMs_ = 5
    ∧ (serviceC7.ntpSync envFetchOk).1.ntpLastAttemptMs_ = 9 :=
  ⟨c8_attempt_recorded serviceC7 envFetchFail rfl (by decide),
    c8_attempt_recorded serviceC7 envFetchOk rfl (by decide)⟩
